import Mathlib

/-!
Verification of `story_workspace.rs` (gpui-component demo app).

This file shallowly embeds the data model and operations of
`crates/app/src/story_workspace.rs`: the theme / color-picker subscription,
the workspace render function with its overlay slots, the dock-area
construction performed in `StoryWorkspace::new`, the window options and
task body of `StoryWorkspace::new_local`, and the task body of `open_new`.
Framework primitives (gpui) and helpers of the `ui` crate that are not part
of the provided source are modelled from the specification, and are marked
as such in their doc comments.
-/

namespace StoryWorkspaceModel

/-- A color in HSLA form, the color type used by the theme.  Components are
rationals (the source uses f32; all values relevant here are exact). -/
structure Hsla where
  h : ℚ
  s : ℚ
  l : ℚ
  a : ℚ
deriving DecidableEq, Repr

/-- Modelled from the spec: `Colorize::lighten` of the `ui` crate is not in
the provided source; the spec describes lighten as linear interpolation of
the color toward white by the given fraction. -/
def lighten (c : Hsla) (f : ℚ) : Hsla :=
  { c with l := c.l + (1 - c.l) * f }

/-- Modelled from the spec: `Colorize::darken` of the `ui` crate is not in
the provided source; the spec describes darken as linear interpolation of
the color toward black by the given fraction. -/
def darken (c : Hsla) (f : ℚ) : Hsla :=
  { c with l := c.l * (1 - f) }

/-- The global `Theme` state, restricted to the fields the source touches
(`theme.primary`, `theme.primary_hover`, `theme.primary_active`) plus the
background/foreground colors read by `render`. -/
structure Theme where
  background : Hsla
  foreground : Hsla
  primary : Hsla
  primary_hover : Hsla
  primary_active : Hsla
deriving DecidableEq, Repr

/-- `ColorPickerEvent` of the `ui` crate: a change event carrying an
optional color (`None` means no change). -/
inductive ColorPickerEvent where
  | Change : Option Hsla → ColorPickerEvent
deriving DecidableEq, Repr

/-- The color-picker subscription handler installed in
`StoryWorkspace::new` (story_workspace.rs lines 99-113): on
`Change(Some(color))` it sets `primary` to the color, `primary_hover` to
`color.lighten(0.1)` and `primary_active` to `color.darken(0.1)` on the
global theme; on `Change(None)` it does nothing. -/
def colorPickerHandler (theme : Theme) (ev : ColorPickerEvent) : Theme :=
  match ev with
  | .Change color =>
    match color with
    | some color =>
      { theme with
          primary := color
          primary_hover := lighten color (1/10)
          primary_active := darken color (1/10) }
    | none => theme

/-- A theme is consistent when its hover and active variants are the fixed
derivations of its current primary color. -/
def Theme.consistent (t : Theme) : Prop :=
  t.primary_hover = lighten t.primary (1/10) ∧
  t.primary_active = darken t.primary (1/10)

/-- The overlay state read from `Root` at the start of
`StoryWorkspace::render` (story_workspace.rs lines 179-182): the optional
modal builder, the optional drawer builder, and the notification view.
Builders and views are opaque to this file and are represented by type
parameters. -/
structure RootState (α β γ : Type) where
  active_modal : Option α
  active_drawer : Option β
  notification : γ
deriving DecidableEq, Repr

/-- One child emitted by `StoryWorkspace::render` into the root `div`'s
child sequence.  The notification layer records its styling: whether it is
absolutely positioned and its offset from the top edge (`top_8`). -/
inductive Child (α β γ : Type) where
  | titleBar
  | dockArea
  | drawer (b : β)
  | modal (m : α)
  | notificationLayer (absolute : Bool) (topOffset : ℚ) (v : γ)
deriving DecidableEq, Repr

/-- The child sequence built by `StoryWorkspace::render`
(story_workspace.rs lines 184-215): title bar, dock area, then — only when
no modal is active — the drawer built from the stored drawer builder if one
is set, then the modal built from the stored modal builder if one is set,
and finally the absolutely positioned notification layer at offset
`top_8`. -/
def renderChildren {α β γ : Type} (s : RootState α β γ) :
    List (Child α β γ) :=
  [Child.titleBar, Child.dockArea]
    ++ (if s.active_modal.isSome then []
        else
          match s.active_drawer with
          | some b => [Child.drawer b]
          | none => [])
    ++ (match s.active_modal with
        | some m => [Child.modal m]
        | none => [])
    ++ [Child.notificationLayer true 8 s.notification]

/-- `render` as a state transition: it only reads (clones) the `Root`
overlay slots and builds an element tree; the stored state is returned
unchanged alongside the emitted children. -/
def renderStep {α β γ : Type} (s : RootState α β γ) :
    RootState α β γ × List (Child α β γ) :=
  (s, renderChildren s)

/-- The drawer contents appearing in an emitted child sequence. -/
def drawersOf {α β γ : Type} : List (Child α β γ) → List β
  | [] => []
  | Child.drawer b :: rest => b :: drawersOf rest
  | _ :: rest => drawersOf rest

/-- Identities of the three tab panels created in `StoryWorkspace::new`. -/
inductive PanelId where
  | left
  | center
  | right
deriving DecidableEq, Repr

/-- Kind of handle to the `DockArea` a component holds: the owning `View`
handle, or the non-owning `WeakView` obtained by `downgrade`. -/
inductive DockRef where
  | strongRef
  | weakRef
deriving DecidableEq, Repr

/-- The layout axis of a stack panel. -/
inductive Axis where
  | Horizontal
  | Vertical
deriving DecidableEq, Repr

/-- A stack panel: its axis and its ordered children, each recorded with
the size hint and the dock-area handle passed to `add_panel`. -/
structure StackPanelM where
  axis : Axis
  children : List (PanelId × Option ℚ × DockRef)
deriving DecidableEq, Repr

/-- `StackPanel::new(axis, cx)`: an empty stack on the given axis. -/
def StackPanelM.new (axis : Axis) : StackPanelM :=
  ⟨axis, []⟩

/-- Modelled from the spec: `StackPanel::add_panel` of the `ui` crate is
not in the provided source; the spec's `addPanel` contract inserts the new
child at the end of the target stack's child sequence, with the optional
size hint fixing its extent along the stack's axis and otherwise a
proportional flex share, children rendering in insertion order. -/
def StackPanelM.add_panel (sp : StackPanelM) (p : PanelId)
    (sizeHint : Option ℚ) (r : DockRef) : StackPanelM :=
  { sp with children := sp.children ++ [(p, sizeHint, r)] }

/-- A tab panel as created by `TabPanel::new(Some(stack), dock_ref, cx)`:
which panel it is and the dock-area handle it was given. -/
structure TabPanelM where
  id : PanelId
  dockRef : DockRef
deriving DecidableEq, Repr

/-- The demo stories registerable via `StoryContainer::add_panel`; the
source registers exactly the List story. -/
inductive StoryId where
  | listStory
deriving DecidableEq, Repr

/-- The result of the construction performed by `StoryWorkspace::new`: the
root stack, the created tab panels, the registered story panels, and the
kind of dock-area handle kept by the workspace itself. -/
structure WorkspaceM where
  rootStack : StackPanelM
  tabPanels : List TabPanelM
  storyPanels : List (StoryId × PanelId)
  dockAreaRef : DockRef
deriving DecidableEq, Repr

/-- The dock construction of `StoryWorkspace::new` (story_workspace.rs
lines 43-88): a horizontal root stack; three tab panels, each handed the
downgraded (weak) dock-area handle; `add_panel` of the left panel with a
500 px hint, the center panel with no hint, the right panel with a 350 px
hint, each call passing the weak handle; one story panel (`List`)
registered into the left tab panel; the workspace itself stores the owning
`dock_area` view. -/
def storyWorkspaceNew : WorkspaceM :=
  let stack_panel := StackPanelM.new .Horizontal
  let center_tab_panel : TabPanelM := ⟨.center, .weakRef⟩
  let left_tab_panel : TabPanelM := ⟨.left, .weakRef⟩
  let right_tab_panel : TabPanelM := ⟨.right, .weakRef⟩
  let stack_panel := stack_panel.add_panel left_tab_panel.id (some 500) .weakRef
  let stack_panel := stack_panel.add_panel center_tab_panel.id none .weakRef
  let stack_panel := stack_panel.add_panel right_tab_panel.id (some 350) .weakRef
  { rootStack := stack_panel
    tabPanels := [center_tab_panel, left_tab_panel, right_tab_panel]
    storyPanels := [(StoryId.listStory, PanelId.left)]
    dockAreaRef := .strongRef }

/-- Nodes of the ownership graph built by `StoryWorkspace::new`: the
workspace, the dock area, the root stack, the three tab panels and their
nested stacks. -/
inductive Node where
  | workspace
  | dockArea
  | rootStack
  | leftTab
  | centerTab
  | rightTab
  | leftStack
  | centerStack
  | rightStack
deriving DecidableEq, Repr, Fintype

/-- Strong (owning) edges of the construction: the workspace stores the
dock-area view; `DockArea::new` stores the root stack view; `add_panel`
stores each tab-panel view in the root stack; `TabPanel::new(Some(stack))`
stores each nested stack view. -/
def strongEdges : List (Node × Node) :=
  [(.workspace, .dockArea), (.dockArea, .rootStack),
   (.rootStack, .leftTab), (.rootStack, .centerTab), (.rootStack, .rightTab),
   (.leftTab, .leftStack), (.centerTab, .centerStack),
   (.rightTab, .rightStack)]

/-- Weak (non-owning) back-edges: every tab panel receives the downgraded
`weak_dock_area`, and each `add_panel` call stores the same weak handle
with the root stack's child entry. -/
def weakEdges : List (Node × Node) :=
  [(.leftTab, .dockArea), (.centerTab, .dockArea), (.rightTab, .dockArea),
   (.rootStack, .dockArea)]

/-- `reaches es fuel a b` holds when `b` is reachable from `a` along the
edges `es` in at most `fuel` steps. -/
def reaches (es : List (Node × Node)) : Nat → Node → Node → Bool
  | 0, a, b => a == b
  | n + 1, a, b => a == b || es.any (fun e => e.1 == a && reaches es n e.2 b)

/-- A graph has a cycle through `n` when some edge out of `n` reaches `n`
back. -/
def cycleAt (es : List (Node × Node)) (n : Node) : Bool :=
  es.any (fun e => e.1 == n && reaches es 8 e.2 n)

/-- A two-dimensional size in logical pixels. -/
structure SizeQ where
  width : ℚ
  height : ℚ
deriving DecidableEq, Repr

/-- A rectangle: its origin and its size. -/
structure BoundsM where
  origin : ℚ × ℚ
  size : SizeQ
deriving DecidableEq, Repr

/-- Modelled from the spec: gpui's `Bounds::centered(None, size, cx)` is
framework code not in the provided source; per the spec the default window
is centered on the primary display, so its origin places the window's
center at the display's center. -/
def boundsCentered (display : SizeQ) (s : SizeQ) : BoundsM :=
  { origin := ((display.width - s.width) / 2, (display.height - s.height) / 2)
    size := s }

/-- gpui `WindowBounds`, restricted to the variant the source uses. -/
inductive WindowBoundsM where
  | Windowed (b : BoundsM)
deriving DecidableEq, Repr

/-- Window titles occurring in this file; the source sets the title
`GPUI App` after creation. -/
inductive WindowTitle where
  | gpuiApp
deriving DecidableEq, Repr

/-- gpui `TitlebarOptions`, restricted to the fields the source sets. -/
structure TitlebarOptionsM where
  title : Option WindowTitle
  appears_transparent : Bool
  traffic_light_position : Option (ℚ × ℚ)
deriving DecidableEq, Repr

/-- gpui `WindowKind`, restricted to the variants relevant here. -/
inductive WindowKindM where
  | Normal
  | PopUp
deriving DecidableEq, Repr

/-- gpui `WindowOptions`, restricted to the fields the source sets
explicitly (the rest are defaulted). -/
structure WindowOptionsM where
  window_bounds : Option WindowBoundsM
  titlebar : Option TitlebarOptionsM
  window_min_size : Option SizeQ
  kind : WindowKindM
deriving DecidableEq, Repr

/-- The window options built in `StoryWorkspace::new_local`
(story_workspace.rs lines 122-138), as a function of the primary display
size used by `Bounds::centered`. -/
def newLocalOptions (display : SizeQ) : WindowOptionsM :=
  { window_bounds := some (.Windowed (boundsCentered display ⟨1600, 1200⟩))
    titlebar := some
      { title := none
        appears_transparent := true
        traffic_light_position := some (9, 9) }
    window_min_size := some ⟨640, 480⟩
    kind := .Normal }

/-- Actions installable as a window release handler; the closure installed
in `new_local` calls `cx.quit()`. -/
inductive ReleaseAction where
  | quitApp
deriving DecidableEq, Repr

/-- The post-creation window configuration performed inside
`window.update` in `new_local` (lines 146-154): activate the window, set
its title, and install a release handler. -/
structure WindowConfig where
  activated : Bool
  title : Option WindowTitle
  onRelease : Option ReleaseAction
deriving DecidableEq, Repr

/-- The configuration the update closure of `new_local` applies: activate,
set the title to `GPUI App`, and install the quit-on-release handler. -/
def configureWindow : WindowConfig :=
  { activated := true
    title := some .gpuiApp
    onRelease := some .quitApp }

/-- Application liveness. -/
inductive AppStatus where
  | running
  | quit
deriving DecidableEq, Repr

/-- Modelled from the framework collaborator surface: releasing (closing)
a window runs its installed release handler; the `quitApp` handler
terminates the application. -/
def fireRelease (c : WindowConfig) : AppStatus :=
  match c.onRelease with
  | some .quitApp => .quit
  | none => .running

/-- Outcome of the asynchronous task spawned by `new_local`: the returned
`Result` — ok with the configured window, or the propagated
window-creation error — or a panic from the `.expect` guarding the
post-creation update. -/
inductive TaskOutcome (ε ω : Type) where
  | ok (w : ω) (config : WindowConfig)
  | err (e : ε)
  | panicked
deriving DecidableEq, Repr

/-- The body of `new_local`'s spawned task (lines 124-158): the result of
`open_window` is propagated by `?` on error, in which case nothing further
runs; on success `window.update` applies the post-creation configuration,
and a failure of that update hits `.expect`, a panic.  The second
component counts how many times the configuration closure ran. -/
def newLocalBody {ε ω : Type} (openResult : Except ε ω)
    (updateSucceeds : Bool) : TaskOutcome ε ω × Nat :=
  match openResult with
  | .error e => (.err e, 0)
  | .ok w =>
    if updateSucceeds then (.ok w configureWindow, 1) else (.panicked, 0)

/-- Completion mode of the `Task<()>` returned by `open_new`. -/
inductive OpenNewOutcome where
  | completed
  | panicked
deriving DecidableEq, Repr

/-- Whether an `Except` value is the success variant. -/
def exceptOk {ε ω : Type} : Except ε ω → Bool
  | .ok _ => true
  | .error _ => false

/-- The body of the task spawned by `open_new` (lines 169-174):
`task.await.ok()` converts the window-creation result to an `Option`,
silently discarding any error, and the `if let Some` then simply falls
through; only on success does `root.update` run the `init` closure, with
`.expect` panicking if that update fails.  The second component counts
invocations of `init`. -/
def openNewBody {ε ω : Type} (taskResult : Except ε ω)
    (rootUpdateSucceeds : Bool) : OpenNewOutcome × Nat :=
  match taskResult with
  | .error _ => (.completed, 0)
  | .ok _ =>
    if rootUpdateSucceeds then (.completed, 1) else (.panicked, 0)

end StoryWorkspaceModel

namespace StoryWorkspaceModel

theorem consistent_handler (t : Theme) (ev : ColorPickerEvent)
    (h : t.consistent) : (colorPickerHandler t ev).consistent := by
  cases ev with
  | Change color =>
    cases color with
    | none => exact h
    | some c => exact ⟨rfl, rfl⟩

theorem consistent_foldl (t : Theme) (evs : List ColorPickerEvent)
    (h : t.consistent) : (evs.foldl colorPickerHandler t).consistent := by
  induction evs generalizing t with
  | nil => exact h
  | cons e rest ih => exact ih _ (consistent_handler t e h)

/-- C1: the color-picker subscription handler, on `Change(Some(c))`, sets
`primary` to `c`, `primary_hover` to `lighten c 0.1` and `primary_active`
to `darken c 0.1`, all pure functions of `c`; handling the same event a
second time leaves the resulting theme identical; and on `Change(None)`
the theme is left entirely unchanged. -/
theorem colorPicker_change_spec (t : Theme) (c : Hsla) :
    (colorPickerHandler t (.Change (some c))).primary = c ∧
    (colorPickerHandler t (.Change (some c))).primary_hover = lighten c (1/10) ∧
    (colorPickerHandler t (.Change (some c))).primary_active = darken c (1/10) ∧
    colorPickerHandler (colorPickerHandler t (.Change (some c))) (.Change (some c)) =
      colorPickerHandler t (.Change (some c)) ∧
    colorPickerHandler t (.Change none) = t :=
  ⟨rfl, rfl, rfl, rfl, rfl⟩

/-- C4: under the single-threaded event-dispatch model of the spec
(section 5), the theme states a consumer can observe are exactly those
between complete handler invocations.  After a color change
`Change(Some(c))` is handled, every subsequently observable theme state —
that is, the state after any further sequence of picker events — has
`primary_hover` and `primary_active` consistently derived from its current
`primary`; no state with a fresh `primary` but stale derived fields is
observable. -/
theorem theme_update_atomic (t : Theme) (c : Hsla)
    (evs : List ColorPickerEvent) :
    (evs.foldl colorPickerHandler
      (colorPickerHandler t (.Change (some c)))).consistent :=
  consistent_foldl _ evs ⟨rfl, rfl⟩

/-- C2: for every overlay state, `render` emits its children in exactly
the order title bar, dock area, drawer (only when no modal is active),
modal (whenever present), notification layer last — above modal and drawer
in every combination — with the notification layer absolutely positioned
at the fixed offset 8 from the top edge. -/
theorem render_child_order (α β γ : Type) (s : RootState α β γ) :
    (∀ m b, s.active_modal = some m → s.active_drawer = some b →
      renderChildren s =
        [Child.titleBar, Child.dockArea, Child.modal m,
         Child.notificationLayer true 8 s.notification]) ∧
    (∀ m, s.active_modal = some m → s.active_drawer = none →
      renderChildren s =
        [Child.titleBar, Child.dockArea, Child.modal m,
         Child.notificationLayer true 8 s.notification]) ∧
    (∀ b, s.active_modal = none → s.active_drawer = some b →
      renderChildren s =
        [Child.titleBar, Child.dockArea, Child.drawer b,
         Child.notificationLayer true 8 s.notification]) ∧
    (s.active_modal = none → s.active_drawer = none →
      renderChildren s =
        [Child.titleBar, Child.dockArea,
         Child.notificationLayer true 8 s.notification]) := by
  refine ⟨?_, ?_, ?_, ?_⟩ <;>
    intros <;> simp_all [renderChildren]

/-- Witness for C2 at a concrete overlay state with both a modal and a
drawer set. -/
theorem render_child_order_witness :
    renderChildren (RootState.mk (α := Nat) (β := Nat) (γ := Nat)
        (some 1) (some 2) 0) =
      [Child.titleBar, Child.dockArea, Child.modal 1,
       Child.notificationLayer true 8 0] :=
  (render_child_order Nat Nat Nat ⟨some 1, some 2, 0⟩).1 1 2 rfl rfl

/-- C3: rendering never modifies the stored drawer slot; with a modal and
a drawer both set, the drawer content is excluded from the render output
while `active_drawer` is left unchanged, and rendering the same state with
the modal cleared emits exactly that same drawer content. -/
theorem modal_suppresses_drawer (α β γ : Type) (s : RootState α β γ)
    (m : α) (d : β) (hm : s.active_modal = some m)
    (hd : s.active_drawer = some d) :
    (renderStep s).1 = s ∧
    Child.drawer d ∉ (renderStep s).2 ∧
    (renderStep s).1.active_drawer = some d ∧
    drawersOf (renderStep ({ s with active_modal := none } : RootState α β γ)).2 = [d] := by
  refine ⟨rfl, ?_, hd, ?_⟩
  · simp [renderStep, renderChildren, hm, hd]
  · simp [renderStep, renderChildren, hd, drawersOf]

/-- Witness for C3 at a concrete overlay state with both a modal and a
drawer set. -/
theorem modal_suppresses_drawer_witness :
    Child.drawer 2 ∉
        (renderStep (RootState.mk (α := Nat) (β := Nat) (γ := Nat)
          (some 1) (some 2) 0)).2 ∧
      drawersOf (renderStep (RootState.mk (α := Nat) (β := Nat) (γ := Nat)
          none (some 2) 0)).2 = [2] :=
  ⟨(modal_suppresses_drawer Nat Nat Nat ⟨some 1, some 2, 0⟩ 1 2 rfl rfl).2.1,
   (modal_suppresses_drawer Nat Nat Nat ⟨some 1, some 2, 0⟩ 1 2 rfl rfl).2.2.2⟩

/-- C5: for every display, the options built by `new_local` request a
windowed bounds of size exactly 1600 by 1200 whose center coincides with
the display's center, a minimum size of 640 by 480, and a
transparent-appearing title bar; and the task body returns the window
handle on success and the window-creation error on failure. -/
theorem new_local_window_options (display : SizeQ) (w e : Nat) :
    (∃ b : BoundsM,
      (newLocalOptions display).window_bounds = some (WindowBoundsM.Windowed b) ∧
      b.size.width = 1600 ∧
      b.size.height = 1200 ∧
      b.origin.1 + b.size.width / 2 = display.width / 2 ∧
      b.origin.2 + b.size.height / 2 = display.height / 2) ∧
    (newLocalOptions display).window_min_size = some ⟨640, 480⟩ ∧
    (∃ tb : TitlebarOptionsM,
      (newLocalOptions display).titlebar = some tb ∧
      tb.appears_transparent = true) ∧
    (newLocalBody (Except.ok w : Except Nat Nat) true).1 =
      TaskOutcome.ok w configureWindow ∧
    (newLocalBody (Except.error e : Except Nat Nat) true).1 =
      TaskOutcome.err e := by
  refine ⟨⟨boundsCentered display ⟨1600, 1200⟩, rfl, rfl, rfl, ?_, ?_⟩,
    rfl, ⟨_, rfl, rfl⟩, rfl, rfl⟩
  · show (display.width - 1600) / 2 + 1600 / 2 = display.width / 2
    ring
  · show (display.height - 1200) / 2 + 1200 / 2 = display.height / 2
    ring

/-- C6: workspace construction appends exactly three tab-panel children to
the horizontal root stack, in order left (500 px hint), center (no hint,
flex share), right (350 px hint), and registers exactly one demo content
panel — the List story — into the left tab panel. -/
theorem workspace_construction :
    storyWorkspaceNew.rootStack.axis = Axis.Horizontal ∧
    storyWorkspaceNew.rootStack.children =
      [(PanelId.left, some 500, DockRef.weakRef),
       (PanelId.center, none, DockRef.weakRef),
       (PanelId.right, some 350, DockRef.weakRef)] ∧
    storyWorkspaceNew.rootStack.children.length = 3 ∧
    storyWorkspaceNew.storyPanels = [(StoryId.listStory, PanelId.left)] :=
  ⟨rfl, rfl, rfl, rfl⟩

/-- C7: if `open_window` fails inside `new_local`'s spawned task, the task
completes with that error propagated (no retry), the post-creation
configuration closure never runs, and no window handle is left live; if
instead the post-creation update fails, the task aborts by panic rather
than degrading silently. -/
theorem new_local_error_paths (ε ω : Type) (e : ε) (w : ω) (u : Bool) :
    newLocalBody (Except.error e : Except ε ω) u = (TaskOutcome.err e, 0) ∧
    newLocalBody (Except.ok w : Except ε ω) false = (TaskOutcome.panicked, 0) :=
  ⟨rfl, rfl⟩

/-- C8: every tab panel, and every child entry added to the root stack,
holds only the weak (downgraded) dock-area handle, while the workspace
holds the owning view; in the ownership graph the dock area's only strong
owner is the workspace, the strong edges are acyclic, and every node of
the panel tree is strongly reachable from the workspace — so destroying
the workspace tears the whole tree down regardless of the weak back-edges
still present. -/
theorem weak_backrefs_acyclic_teardown :
    (storyWorkspaceNew.tabPanels.all
      (fun tp => tp.dockRef == DockRef.weakRef)) = true ∧
    (storyWorkspaceNew.rootStack.children.all
      (fun c => c.2.2 == DockRef.weakRef)) = true ∧
    storyWorkspaceNew.dockAreaRef = DockRef.strongRef ∧
    (strongEdges.all
      (fun e => !(e.2 == Node.dockArea) || e.1 == Node.workspace)) = true ∧
    (weakEdges.all (fun e => !(strongEdges.contains e))) = true ∧
    (∀ n : Node, cycleAt strongEdges n = false) ∧
    (∀ n : Node, reaches strongEdges 8 Node.workspace n = true) := by
  refine ⟨rfl, rfl, rfl, rfl, rfl, ?_, ?_⟩ <;> decide

/-- C9: on the success path of `new_local`, the installed configuration
activates the window and sets a release handler that quits the app, so
releasing (closing) the window terminates the application, not just the
window. -/
theorem on_release_quits_app (ω : Type) (w : ω) :
    (newLocalBody (Except.ok w : Except Unit ω) true) =
      (TaskOutcome.ok w configureWindow, 1) ∧
    configureWindow.onRelease = some ReleaseAction.quitApp ∧
    fireRelease configureWindow = AppStatus.quit :=
  ⟨rfl, rfl, rfl⟩

/-- C10: if the window-creation task awaited by `open_new` fails, the
returned task completes normally with the error silently discarded and
`init` never invoked; and whenever the task completes normally, `init` was
invoked exactly once if and only if window creation succeeded. -/
theorem open_new_discards_error (ε ω : Type) (res : Except ε ω) (u : Bool) :
    (∀ e, res = Except.error e →
      openNewBody res u = (OpenNewOutcome.completed, 0)) ∧
    ((openNewBody res u).1 = OpenNewOutcome.completed →
      ((openNewBody res u).2 = 1 ↔ exceptOk res = true)) := by
  constructor
  · intro e he
    subst he
    rfl
  · cases res with
    | error e =>
      intro _
      simp [openNewBody, exceptOk]
    | ok w =>
      cases u with
      | true =>
        intro _
        simp [openNewBody, exceptOk]
      | false =>
        intro hc
        simp [openNewBody] at hc

/-- Witness for C10 at concrete failed and successful creation results. -/
theorem open_new_discards_error_witness :
    openNewBody (Except.error 0 : Except Nat Nat) true =
      (OpenNewOutcome.completed, 0) ∧
    ((openNewBody (Except.ok 0 : Except Nat Nat) true).2 = 1 ↔
      exceptOk (Except.ok 0 : Except Nat Nat) = true) :=
  ⟨(open_new_discards_error Nat Nat (Except.error 0) true).1 0 rfl,
   (open_new_discards_error Nat Nat (Except.ok 0) true).2 rfl⟩

end StoryWorkspaceModel
